import Mathlib

/-!
Verification of the Lenny chat API handler, a shallow embedding of the
retrieval-and-streaming pipeline in src/admin/api/chat.py, together with
proofs of the specified properties.

Python strings are modelled as lists of characters (Str); the dict rows
returned by the content stores are modelled as structures with optional
fields (a missing key is none, and the Python dict.get defaults become
Option.getD); similarity scores flow through the pipeline unmodified and
are only compared, so they are modelled as rationals. The remote
collaborators (embedding provider, content-store RPC, chat model stream)
are oracle functions supplied in an environment record; an oracle
returning none models the corresponding call raising an exception, which
the Python code catches, so every modelled function is total. The stable
Python list.sort with reverse=True is modelled by a stable descending
insertion sort.
-/

namespace LennyChat

abbrev Str := List Char

/-- ASCII whitespace, the characters stripped by Python str.strip on the
text this handler processes. -/
def pyIsSpace (c : Char) : Bool :=
  c = ' ' || c = '\t' || c = '\n' || c = '\r' || c = '\x0b' || c = '\x0c'

/-- Python str.strip: drop whitespace from both ends. -/
def pyStrip (s : Str) : Str :=
  ((s.dropWhile pyIsSpace).reverse.dropWhile pyIsSpace).reverse

/-- Python text.replace of the newline character by a space. -/
def pyCollapseNl (s : Str) : Str :=
  s.map (fun c => if c = '\n' then ' ' else c)

/-- Python sep.join of a list of strings. -/
def pyJoin (sep : Str) : List Str → Str
  | [] => []
  | [p] => p
  | p :: q :: ps => p ++ sep ++ pyJoin sep (q :: ps)

/-- The nested metadata mapping of a search-result row; only the keys the
handler reads are modelled. -/
structure Metadata where
  element_type : Option Str := none
  page_title : Option Str := none
  opens_component : Option Str := none
  navigates_to : Option Str := none
  component_type : Option Str := none
  deriving DecidableEq

/-- A row returned by either content store, as read by the handler. -/
structure SearchResult where
  id : Option Str := none
  content_type : Option Str := none
  title : Option Str := none
  description : Option Str := none
  url_or_path : Option Str := none
  screenshot_url : Option Str := none
  similarity : Option ℚ := none
  metadata : Option Metadata := none
  chunk_id : Option Str := none
  content : Option Str := none
  source_url : Option Str := none
  deriving DecidableEq

/-! Embedding provider: generate_embedding (chat.py lines 64-82). -/

/-- Result of generate_embedding together with the list of texts actually
submitted to the remote embedding provider. -/
structure EmbedOutcome where
  value : Option (List ℚ)
  calls : List Str

/-- The normalisation applied before submission: newlines to spaces, strip,
then slice to the first 30000 characters (chat.py line 69). -/
def embedSubmission (text : Str) : Str :=
  (pyStrip (pyCollapseNl text)).take 30000

/-- generate_embedding: return none on empty or whitespace-only input
without a remote call; otherwise submit the normalised text. The oracle
returning none models both a failed call and a raised exception, which the
except block turns into None. -/
def generate_embedding (remote : Str → Option (List ℚ)) (text : Str) : EmbedOutcome :=
  if text = [] ∨ pyStrip text = [] then ⟨none, []⟩
  else ⟨remote (embedSubmission text), [embedSubmission text]⟩

/-! Similarity search: search_app_content (lines 85-118) and
search_kb_content (lines 121-137). The fixed RPC parameters
(match_count 25 and threshold 0.20 with the three content types for the
app store; match_count 3 and threshold 0.5 for the KB store) are carried
by the two distinct oracle fields. -/

/-- Result of a search call together with the provider calls it made. -/
structure SearchOutcome where
  results : List SearchResult
  embedCalls : List Str
  storeCalls : Nat

/-- search_app_content: embed the query; on a falsy embedding (None or
empty) return [] without touching the store; otherwise call the RPC, where
an outer none models a raised exception and the inner Option models
result.data being None (the code applies result.data or []). -/
def search_app_content (embedRemote : Str → Option (List ℚ))
    (rpc : List ℚ → Option (Option (List SearchResult))) (query : Str) : SearchOutcome :=
  let e := generate_embedding embedRemote query
  match e.value with
  | none => ⟨[], e.calls, 0⟩
  | some v =>
    if v = [] then ⟨[], e.calls, 0⟩
    else
      match rpc v with
      | none => ⟨[], e.calls, 1⟩
      | some d => ⟨d.getD [], e.calls, 1⟩

/-- search_kb_content: identical control flow against the KB store. -/
def search_kb_content (embedRemote : Str → Option (List ℚ))
    (rpc : List ℚ → Option (Option (List SearchResult))) (query : Str) : SearchOutcome :=
  let e := generate_embedding embedRemote query
  match e.value with
  | none => ⟨[], e.calls, 0⟩
  | some v =>
    if v = [] then ⟨[], e.calls, 0⟩
    else
      match rpc v with
      | none => ⟨[], e.calls, 1⟩
      | some d => ⟨d.getD [], e.calls, 1⟩

/-! Context assembler: build_context (lines 140-196). -/

def noDocsMsg : Str := "No relevant documentation found.".data

def hdrActions : Str := "=== UI ACTIONS (where users can do things) ===".data

def hdrComponents : Str := "\n=== UI COMPONENTS (modals, drawers, panels) ===".data

def hdrPages : Str := "\n=== PAGES (main screens) ===".data

def hdrKB : Str := "\n=== Related KB Context ===".data

def pagesOf (app : List SearchResult) : List SearchResult :=
  app.filter (fun r => decide (r.content_type = some ("page".data)))

def componentsOf (app : List SearchResult) : List SearchResult :=
  app.filter (fun r => decide (r.content_type = some ("component".data)))

def actionsOf (app : List SearchResult) : List SearchResult :=
  app.filter (fun r => decide (r.content_type = some ("action".data)))

def emptyMetadata : Metadata := {}

/-- action.get of the metadata key with the or-empty-dict fallback. -/
def metaOf (r : SearchResult) : Metadata := r.metadata.getD emptyMetadata

def actionElemType (r : SearchResult) : Str := (metaOf r).element_type.getD ("button".data)

def actionPageTitle (r : SearchResult) : Str := (metaOf r).page_title.getD []

def actionOpens (r : SearchResult) : Str := (metaOf r).opens_component.getD []

def actionNavigates (r : SearchResult) : Str := (metaOf r).navigates_to.getD []

/-- The description of an action entry, truncated to 400 characters. -/
def actionDesc (r : SearchResult) : Str := (r.description.getD []).take 400

/-- The location text of an action entry: the page title from metadata when
truthy, else the raw URL (line 160). -/
def actionLocation (r : SearchResult) : Str :=
  if actionPageTitle r ≠ [] then "on page \x27".data ++ actionPageTitle r ++ "\x27".data
  else "at ".data ++ r.url_or_path.getD []

/-- The outcome annotation of an action entry (lines 161-165): the opens
annotation when truthy, else the navigates annotation when truthy, else
empty. -/
def actionResultInfo (r : SearchResult) : Str :=
  if actionOpens r ≠ [] then " → Opens: ".data ++ actionOpens r
  else if actionNavigates r ≠ [] then " → Navigates to: ".data ++ actionNavigates r
  else []

def actionEntry (r : SearchResult) : Str :=
  "• ".data ++ actionElemType r ++ " \x27".data ++ r.title.getD [] ++ "\x27 ".data ++
    actionLocation r ++ actionResultInfo r ++ "\n  ".data ++ actionDesc r

def compType (r : SearchResult) : Str := (metaOf r).component_type.getD ("component".data)

def compPageTitle (r : SearchResult) : Str := (metaOf r).page_title.getD []

/-- The description of a component entry, truncated to 300 characters. -/
def compDesc (r : SearchResult) : Str := (r.description.getD []).take 300

def compLocation (r : SearchResult) : Str :=
  if compPageTitle r ≠ [] then "on \x27".data ++ compPageTitle r ++ "\x27".data else []

def componentEntry (r : SearchResult) : Str :=
  "• ".data ++ compType r ++ " \x27".data ++ r.title.getD [] ++ "\x27 ".data ++
    compLocation r ++ "\n  ".data ++ compDesc r

/-- The description of a page entry, truncated to 200 characters. -/
def pageDesc (r : SearchResult) : Str := (r.description.getD []).take 200

def pageEntry (r : SearchResult) : Str :=
  "• Page \x27".data ++ r.title.getD [] ++ "\x27 at ".data ++ r.url_or_path.getD [] ++
    "\n  ".data ++ pageDesc r

/-- The KB snippet placed in the context, truncated to 400 characters. -/
def kbSnippet (r : SearchResult) : Str := (r.content.getD []).take 400

def kbEntry (r : SearchResult) : Str :=
  "• ".data ++ r.title.getD ("Help Article".data) ++ ": ".data ++ kbSnippet r

/-- The context_parts list built by build_context: a header plus entry list
per non-empty section, in the fixed order actions, components, pages, KB. -/
def build_context_parts (app kb : List SearchResult) : List Str :=
  (if actionsOf app = [] then [] else hdrActions :: ((actionsOf app).take 20).map actionEntry) ++
  (if componentsOf app = [] then [] else
    hdrComponents :: ((componentsOf app).take 8).map componentEntry) ++
  (if pagesOf app = [] then [] else hdrPages :: ((pagesOf app).take 5).map pageEntry) ++
  (if kb = [] then [] else hdrKB :: (kb.take 2).map kbEntry)

/-- build_context: join the parts with blank lines, or the sentinel when no
part was produced (line 196). -/
def build_context (app kb : List SearchResult) : Str :=
  if build_context_parts app kb = [] then noDocsMsg
  else pyJoin ("\n\n".data) (build_context_parts app kb)

/-! Source formatter: format_sources (lines 199-225). -/

/-- A caller-facing citation as assembled by format_sources. -/
structure Citation where
  id : Str
  content_type : Str
  title : Str
  description : Str
  url_or_path : Str
  screenshot_url : Option Str
  similarity : ℚ
  deriving DecidableEq

/-- The citation built from an app result (lines 203-212). -/
def appCitation (r : SearchResult) : Citation :=
  { id := r.id.getD []
    content_type := r.content_type.getD []
    title := r.title.getD []
    description := (r.description.getD []).take 150
    url_or_path := r.url_or_path.getD []
    screenshot_url := r.screenshot_url
    similarity := r.similarity.getD 0 }

/-- The citation built from a KB result (lines 214-222): category fixed to
article, chunk_id preferred over id, no screenshot field. -/
def kbCitation (r : SearchResult) : Citation :=
  { id := r.chunk_id.getD (r.id.getD [])
    content_type := "article".data
    title := r.title.getD ("Knowledge Base Article".data)
    description := (r.content.getD []).take 150
    url_or_path := r.source_url.getD []
    screenshot_url := none
    similarity := r.similarity.getD 0 }

/-- The combined citation list before sorting: first 8 app results then
first 2 KB results. -/
def combinedCitations (app kb : List SearchResult) : List Citation :=
  (app.take 8).map appCitation ++ (kb.take 2).map kbCitation

/-- One step of the stable descending insertion sort modelling
sources.sort(key, reverse=True): the new element goes before the first
element whose similarity is at most its own, hence after every strictly
greater one and before every equal one. -/
def insertDesc (x : Citation) : List Citation → List Citation
  | [] => [x]
  | y :: ys => if y.similarity ≤ x.similarity then x :: y :: ys else y :: insertDesc x ys

/-- Stable descending sort by similarity. -/
def sortDesc : List Citation → List Citation
  | [] => []
  | x :: xs => insertDesc x (sortDesc xs)

/-- format_sources: combine, sort descending by similarity (stably), then
keep the first 8. -/
def format_sources (app kb : List SearchResult) : List Citation :=
  (sortDesc (combinedCitations app kb)).take 8

/-! Chat streaming orchestrator: handler.do_POST (lines 269-353) and
handler._send_event (lines 355-362). Everything after the SSE headers are
committed is modelled by streamTrace, which returns the sequence of events
written to the stream together with the external calls made. _send_event
swallows write failures, so emitting an event never raises. -/

/-- A typed stream event, the payload of one data: line. -/
inductive Event where
  | sources (cs : List Citation)
  | content (s : Str)
  | error (msg : Str)
  | done
  deriving DecidableEq

def isDoneEvent : Event → Bool
  | Event.done => true
  | _ => false

def isSourcesEvent : Event → Bool
  | Event.sources _ => true
  | _ => false

def isErrorEvent : Event → Bool
  | Event.error _ => true
  | _ => false

def isContentEvent : Event → Bool
  | Event.content _ => true
  | _ => false

/-- One prior conversation turn from the request history. -/
structure ChatMessage where
  role : Option Str := none
  content : Option Str := none

/-- The parsed request body fields the handler reads, with the defaults of
data.get already applied. -/
structure Request where
  message : Str := []
  history : List ChatMessage := []

/-- The remote collaborators of one request. chunks lists the delta
contents of the model stream chunks that arrive (none for a chunk without
content); streamErr, when some, models the model call or its iteration
raising with that message after the listed chunks. -/
structure Env where
  embedRemote : Str → Option (List ℚ)
  appRpc : List ℚ → Option (Option (List SearchResult))
  kbRpc : List ℚ → Option (Option (List SearchResult))
  chunks : List (Option Str)
  streamErr : Option Str

/-- Everything observable about the streaming part of one request: the
events written, the texts submitted to the embedding provider, the number
of store RPC attempts, and the message list of the model call if one was
started. -/
structure StreamOutcome where
  events : List Event
  embedCalls : List Str
  storeCalls : Nat
  modelCall : Option (List (Str × Str))
  deriving DecidableEq

/-- The content event emitted for one stream chunk, if any: only a chunk
with truthy (present, non-empty) delta content is forwarded (line 342). -/
def chunkEvent (c : Option Str) : Option Event :=
  match c with
  | none => none
  | some s => if s = [] then none else some (Event.content s)

def contentEvents (chunks : List (Option Str)) : List Event :=
  chunks.filterMap chunkEvent

/-- The events after the content: done on success, error then done when the
generation raised (lines 346-353). -/
def doneTail (streamErr : Option Str) : List Event :=
  match streamErr with
  | none => [Event.done]
  | some m => [Event.error m, Event.done]

def SYSTEM_PROMPT : Str := "You are Lenny, an internal AccuLynx assistant helping the team audit and understand where actions can be taken in the app.\n\nYour PRIMARY job is to help identify WHERE in the AccuLynx UI specific actions, buttons, or features exist. Focus on:\n- Which PAGE contains the action\n- Which COMPONENT (modal, drawer, dropdown) the action is in\n- The exact path/hierarchy: Page → Component → Action\n\nWhen answering questions about where something is or how to do something:\n1. List ALL the places where that action/feature exists\n2. Be specific about the UI path (e.g., \"Job Overview page → A/R Details section → Take Payment button\")\n3. Mention if an action opens a drawer/modal or navigates to another page\n4. Note if the same action appears in multiple places\n\nThis is for internal auditing - be thorough and specific about UI locations, not general explanations.".data

def contextMessage (context : Str) : Str :=
  "Here\x27s what I found in the AccuLynx documentation:\n\n".data ++ context

/-- Python history slice with negative index -6: the last six entries. -/
def lastSix (l : List ChatMessage) : List ChatMessage := l.drop (l.length - 6)

/-- The role and content pairs of the model call (lines 321-329). -/
def mkMessages (context : Str) (history : List ChatMessage) (message : Str) : List (Str × Str) :=
  ("system".data, SYSTEM_PROMPT) :: ("system".data, contextMessage context) ::
    (lastSix history).map (fun m => (m.role.getD ("user".data), m.content.getD [])) ++
    [("user".data, message)]

def msgNoMessage : Str := "No message provided".data

/-- The streaming part of do_POST, entered once the SSE headers are
committed. A parse failure of the body (Except.error) is caught by the
outer handler and produces the error and done events; an empty message
short-circuits with a validation error; otherwise both searches run (they
never raise), the sources event is emitted, and the model stream is
forwarded. -/
def streamTrace (env : Env) (req : Except Str Request) : StreamOutcome :=
  match req with
  | Except.error m => ⟨[Event.error m, Event.done], [], 0, none⟩
  | Except.ok r =>
    if r.message = [] then
      ⟨[Event.error msgNoMessage, Event.done], [], 0, none⟩
    else
      let sa := search_app_content env.embedRemote env.appRpc r.message
      let sk := search_kb_content env.embedRemote env.kbRpc r.message
      ⟨Event.sources (format_sources sa.results sk.results) ::
          (contentEvents env.chunks ++ doneTail env.streamErr),
        sa.embedCalls ++ sk.embedCalls, sa.storeCalls + sk.storeCalls,
        some (mkMessages (build_context sa.results sk.results) r.history r.message)⟩

/-- The configuration read from the environment at module load. -/
structure Config where
  OPENAI_API_KEY : Str := []
  SUPABASE_URL : Str := []
  SUPABASE_SERVICE_ROLE_KEY : Str := []

/-- The full response of do_POST: either a pre-stream JSON error response
with an HTTP status (no stream event was written), or an event stream. -/
inductive Response where
  | jsonError (status : Nat) (msg : Str)
  | stream (out : StreamOutcome)
  deriving DecidableEq

def msgMissingOpenAI : Str := "Server misconfigured: Missing OPENAI_API_KEY".data

def msgMissingSupabase : Str := "Server misconfigured: Missing Supabase credentials".data

/-- do_POST: the credential checks run before any streaming header or event
(lines 274-282); only then is the SSE stream opened. -/
def do_POST (cfg : Config) (env : Env) (req : Except Str Request) : Response :=
  if cfg.OPENAI_API_KEY = [] then Response.jsonError 500 msgMissingOpenAI
  else if cfg.SUPABASE_URL = [] ∨ cfg.SUPABASE_SERVICE_ROLE_KEY = [] then
    Response.jsonError 500 msgMissingSupabase
  else Response.stream (streamTrace env req)

/-- The event-sequence pattern sources? content* error? done. -/
def matchesPattern (evs : List Event) : Prop :=
  ∃ pre mids post, evs = pre ++ mids ++ post ++ [Event.done] ∧
    (pre = [] ∨ ∃ cs, pre = [Event.sources cs]) ∧
    (∀ e ∈ mids, ∃ s, e = Event.content s) ∧
    (post = [] ∨ ∃ m, post = [Event.error m])

/-! Concrete fixtures used by witnesses. -/

/-- An environment whose collaborators all fail and whose model stream is
empty. -/
def envAllFail : Env :=
  { embedRemote := fun _ => none, appRpc := fun _ => none, kbRpc := fun _ => none,
    chunks := [], streamErr := none }

/-- Metadata carrying a page title and both outcome annotations. -/
def wActionMeta : Metadata :=
  { page_title := some ("Job Overview".data),
    opens_component := some ("Payment Modal".data),
    navigates_to := some ("/payments".data) }

/-- An action row carrying a page title and both outcome annotations. -/
def wAction : SearchResult :=
  { content_type := some ("action".data), title := some ("Take Payment".data),
    url_or_path := some ("/jobs/overview".data), similarity := some 1,
    metadata := some wActionMeta }

/-- A row whose description and content far exceed every truncation cap. -/
def wLongRow : SearchResult :=
  { description := some (List.replicate 1000 'a'),
    content := some (List.replicate 1000 'b') }

/-! Helper lemmas. -/

theorem pyStrip_eq_nil_iff (s : Str) : pyStrip s = [] ↔ ∀ c ∈ s, pyIsSpace c = true := by
  unfold pyStrip
  constructor
  · intro h c hc
    have h1 : (s.dropWhile pyIsSpace).reverse.dropWhile pyIsSpace = [] := by
      simpa using congrArg List.reverse h
    have h2 : ∀ x ∈ (s.dropWhile pyIsSpace).reverse, pyIsSpace x :=
      List.dropWhile_eq_nil_iff.mp h1
    have h3 : ∀ x ∈ s.dropWhile pyIsSpace, pyIsSpace x := by
      intro x hx
      exact h2 x (List.mem_reverse.mpr hx)
    have hsplit := List.takeWhile_append_dropWhile (p := pyIsSpace) (l := s)
    rw [← hsplit] at hc
    rcases List.mem_append.mp hc with hc | hc
    · exact List.mem_takeWhile_imp hc
    · exact h3 c hc
  · intro h
    have h1 : s.dropWhile pyIsSpace = [] :=
      List.dropWhile_eq_nil_iff.mpr (fun c hc => h c hc)
    simp [h1]

theorem pyJoin_head (sep : Str) (p : Str) (ps : List Str) (hp : p ≠ []) :
    (pyJoin sep (p :: ps)).head? = p.head? := by
  cases ps with
  | nil => rfl
  | cons q qs =>
    rcases p with _ | ⟨c, cs⟩
    · exact absurd rfl hp
    · rfl

/-- C8: generate_embedding returns none without a remote call on empty or
whitespace-only input; otherwise the single text submitted to the provider
is the input with newlines replaced by spaces, stripped, and truncated to
30000 characters, and the returned value is whatever the provider gives
for that text. -/
theorem generate_embedding_spec (remote : Str → Option (List ℚ)) (text : Str) :
    ((text = [] ∨ ∀ c ∈ text, pyIsSpace c = true) →
      generate_embedding remote text = ⟨none, []⟩) ∧
    (text ≠ [] → ¬(∀ c ∈ text, pyIsSpace c = true) →
      (generate_embedding remote text).calls = [embedSubmission text] ∧
      (generate_embedding remote text).value = remote (embedSubmission text)) := by
  constructor
  · intro h
    have hguard : text = [] ∨ pyStrip text = [] := by
      rcases h with h | h
      · exact Or.inl h
      · exact Or.inr ((pyStrip_eq_nil_iff text).mpr h)
    unfold generate_embedding
    rw [if_pos hguard]
  · intro h1 h2
    have hguard : ¬(text = [] ∨ pyStrip text = []) := by
      intro h
      rcases h with h | h
      · exact h1 h
      · exact h2 ((pyStrip_eq_nil_iff text).mp h)
    unfold generate_embedding
    rw [if_neg hguard]
    exact ⟨rfl, rfl⟩

/-- C8 witness: a whitespace-only input yields none with no call; the input
hi is submitted normalised. -/
theorem generate_embedding_spec_witness :
    generate_embedding (fun _ => none) (" \t".data) = ⟨none, []⟩ ∧
    (generate_embedding (fun _ => some [1]) ("hi".data)).calls = [embedSubmission ("hi".data)] := by
  exact ⟨(generate_embedding_spec (fun _ => none) (" \t".data)).1 (Or.inr (by decide)),
    ((generate_embedding_spec (fun _ => some [1]) ("hi".data)).2 (by decide) (by decide)).1⟩

/-- C4: when the query embedding is absent, both searches return the empty
sequence with zero store-RPC attempts; when the embedding succeeds but the
store RPC of either search raises, that search still returns the empty
sequence. Both searches are total functions of their oracles, so neither
ever raises to its caller. -/
theorem search_degrades_to_empty (er : Str → Option (List ℚ))
    (appRpc kbRpc : List ℚ → Option (Option (List SearchResult))) (query : Str) :
    ((generate_embedding er query).value = none →
      (search_app_content er appRpc query).results = [] ∧
      (search_app_content er appRpc query).storeCalls = 0 ∧
      (search_kb_content er kbRpc query).results = [] ∧
      (search_kb_content er kbRpc query).storeCalls = 0) ∧
    (∀ v, (generate_embedding er query).value = some v → appRpc v = none →
      (search_app_content er appRpc query).results = []) ∧
    (∀ v, (generate_embedding er query).value = some v → kbRpc v = none →
      (search_kb_content er kbRpc query).results = []) := by
  refine ⟨?_, ?_, ?_⟩
  · intro h
    constructor
    · simp [search_app_content, h]
    constructor
    · simp [search_app_content, h]
    constructor
    · simp [search_kb_content, h]
    · simp [search_kb_content, h]
  · intro v hv hrpc
    by_cases hnil : v = []
    · simp [search_app_content, hv, hnil]
    · simp [search_app_content, hv, hnil, hrpc]
  · intro v hv hrpc
    by_cases hnil : v = []
    · simp [search_kb_content, hv, hnil]
    · simp [search_kb_content, hv, hnil, hrpc]

/-- C4 witness: with a failing embedding provider both searches degrade to
empty without a store call, and with a failing store RPC the app search
still returns empty. -/
theorem search_degrades_to_empty_witness :
    (search_app_content (fun _ => none) (fun _ => none) ("q".data)).results = [] ∧
    (search_kb_content (fun _ => none) (fun _ => none) ("q".data)).storeCalls = 0 ∧
    (search_app_content (fun _ => some [1]) (fun _ => none) ("q".data)).results = [] := by
  refine ⟨((search_degrades_to_empty (fun _ => none) (fun _ => none) (fun _ => none)
      ("q".data)).1 (by decide)).1,
    ((search_degrades_to_empty (fun _ => none) (fun _ => none) (fun _ => none)
      ("q".data)).1 (by decide)).2.2.2,
    (search_degrades_to_empty (fun _ => some [1]) (fun _ => none) (fun _ => none)
      ("q".data)).2.1 [1] (by decide) rfl⟩

/-- C9: the location of an action entry uses the metadata page title when
it is truthy and otherwise falls back to the raw URL; the outcome
annotation is the Opens form when the opens metadata is truthy (taking
priority over navigates), else the Navigates form when the navigates
metadata is truthy, else empty. -/
theorem action_formatting (r : SearchResult) :
    (actionPageTitle r ≠ [] →
      actionLocation r = "on page \x27".data ++ actionPageTitle r ++ "\x27".data) ∧
    (actionPageTitle r = [] →
      actionLocation r = "at ".data ++ r.url_or_path.getD []) ∧
    (actionOpens r ≠ [] →
      actionResultInfo r = " → Opens: ".data ++ actionOpens r) ∧
    (actionOpens r = [] → actionNavigates r ≠ [] →
      actionResultInfo r = " → Navigates to: ".data ++ actionNavigates r) ∧
    (actionOpens r = [] → actionNavigates r = [] → actionResultInfo r = []) := by
  refine ⟨?_, ?_, ?_, ?_, ?_⟩
  · intro h; rw [actionLocation, if_pos h]
  · intro h; rw [actionLocation, if_neg (by simp [h])]
  · intro h; rw [actionResultInfo, if_pos h]
  · intro h1 h2
    rw [actionResultInfo, if_neg (by simp [h1]), if_pos h2]
  · intro h1 h2
    rw [actionResultInfo, if_neg (by simp [h1]), if_neg (by simp [h2])]

/-- C9 witness: a concrete action whose metadata carries a page title and
both an opens and a navigates value; the page title is used and the opens
annotation wins. -/
theorem action_formatting_witness :
    actionLocation wAction = "on page \x27".data ++ "Job Overview".data ++ "\x27".data ∧
    actionResultInfo wAction = " → Opens: ".data ++ "Payment Modal".data := by
  exact ⟨(action_formatting wAction).1 (by decide),
    (action_formatting wAction).2.2.1 (by decide)⟩

/-- C7: every truncated text placed into the context block or a citation
respects its cap, for arbitrary input rows: action descriptions at 400,
component descriptions at 300, page descriptions at 200, KB snippets at
400, and citation descriptions (app and KB alike) at 150 characters. -/
theorem truncation_bounds (r : SearchResult) :
    (actionDesc r).length ≤ 400 ∧ (compDesc r).length ≤ 300 ∧
    (pageDesc r).length ≤ 200 ∧ (kbSnippet r).length ≤ 400 ∧
    (appCitation r).description.length ≤ 150 ∧
    (kbCitation r).description.length ≤ 150 := by
  refine ⟨?_, ?_, ?_, ?_, ?_, ?_⟩ <;>
    simp [actionDesc, compDesc, pageDesc, kbSnippet, appCitation, kbCitation,
      List.length_take]

/-- C7 witness: the bounds hold on a row whose description and content are
far longer than every cap. -/
theorem truncation_bounds_witness :
    (actionDesc wLongRow).length ≤ 400 ∧ (appCitation wLongRow).description.length ≤ 150 := by
  exact ⟨(truncation_bounds wLongRow).1, (truncation_bounds wLongRow).2.2.2.2.1⟩

/-! Lemmas on build_context. -/

theorem build_context_parts_eq_nil (app kb : List SearchResult) :
    build_context_parts app kb = [] ↔
      (actionsOf app = [] ∧ componentsOf app = [] ∧ pagesOf app = [] ∧ kb = []) := by
  by_cases h1 : actionsOf app = [] <;> by_cases h2 : componentsOf app = [] <;>
    by_cases h3 : pagesOf app = [] <;> by_cases h4 : kb = [] <;>
    simp [build_context_parts, h1, h2, h3, h4]

theorem build_context_parts_cons (app kb : List SearchResult)
    (h : build_context_parts app kb ≠ []) :
    ∃ p ps, build_context_parts app kb = p :: ps ∧
      (p.head? = some '=' ∨ p.head? = some '\n') := by
  by_cases h1 : actionsOf app = [] <;> by_cases h2 : componentsOf app = [] <;>
    by_cases h3 : pagesOf app = [] <;> by_cases h4 : kb = [] <;>
    simp only [build_context_parts, h1, h2, h3, h4, if_pos, if_neg, ite_true, ite_false,
      List.nil_append, List.append_nil, List.cons_append, List.append_assoc,
      not_true, not_false_iff] at h ⊢
  case pos => exact absurd rfl h
  all_goals exact ⟨_, _, rfl, by decide⟩

/-- A store row whose content type is not one of page, component, action. -/
def wStray : SearchResult :=
  { content_type := some ("article".data), title := some ("Billing FAQ".data),
    similarity := some 1 }

/-- C2 counterexample: build_context returns the sentinel on a non-empty
app result list containing a row whose content type is none of page,
component, action, so the sentinel is not equivalent to both inputs being
empty. -/
theorem build_context_sentinel_claim_false :
    build_context [wStray] [] = noDocsMsg ∧ ([wStray] : List SearchResult) ≠ [] := by
  exact ⟨by decide, by decide⟩

/-- C2 as amended: build_context returns the sentinel exactly when the app
results contain no page, component, or action row and the KB results are
empty (in particular when both inputs are empty), and it never returns the
empty string. -/
theorem build_context_sentinel_iff (app kb : List SearchResult) :
    (build_context app kb = noDocsMsg ↔
      (actionsOf app = [] ∧ componentsOf app = [] ∧ pagesOf app = [] ∧ kb = [])) ∧
    build_context app kb ≠ [] := by
  by_cases h : build_context_parts app kb = []
  · have hcond := (build_context_parts_eq_nil app kb).mp h
    rw [build_context, if_pos h]
    exact ⟨⟨fun _ => hcond, fun _ => rfl⟩, by decide⟩
  · rcases build_context_parts_cons app kb h with ⟨p, ps, hps, hchar⟩
    have hp : p ≠ [] := by
      intro hnil
      rcases hchar with hc | hc <;> rw [hnil] at hc <;> exact absurd hc (by decide)
    have hhead : (build_context app kb).head? = p.head? := by
      rw [build_context, if_neg h, hps]
      exact pyJoin_head _ p ps hp
    refine ⟨⟨?_, ?_⟩, ?_⟩
    · intro he
      rw [he] at hhead
      rcases hchar with hc | hc <;> rw [hc] at hhead <;> exact absurd hhead (by decide)
    · intro hcond
      exact absurd ((build_context_parts_eq_nil app kb).mpr hcond) h
    · intro he
      rw [he] at hhead
      rcases hchar with hc | hc <;> rw [hc] at hhead <;> exact absurd hhead (by decide)

/-- C2 witness for the amended statement: both inputs empty gives the
sentinel, and a non-empty action list gives a non-empty context. -/
theorem build_context_sentinel_iff_witness :
    build_context [] [] = noDocsMsg ∧ build_context [wAction] [] ≠ [] := by
  exact ⟨(build_context_sentinel_iff [] []).1.mpr (by decide),
    (build_context_sentinel_iff [wAction] []).2⟩

/-! Lemmas on the stable descending sort. -/

theorem mem_insertDesc (z x : Citation) :
    ∀ l : List Citation, z ∈ insertDesc x l → z = x ∨ z ∈ l := by
  intro l
  induction l with
  | nil =>
    intro h
    simp [insertDesc] at h
    exact Or.inl h
  | cons y ys ih =>
    intro h
    by_cases hc : y.similarity ≤ x.similarity
    · simp only [insertDesc, if_pos hc] at h
      rcases List.mem_cons.mp h with h | h
      · exact Or.inl h
      · exact Or.inr h
    · simp only [insertDesc, if_neg hc] at h
      rcases List.mem_cons.mp h with h | h
      · exact Or.inr (by rw [h]; exact List.mem_cons_self y ys)
      · rcases ih h with h | h
        · exact Or.inl h
        · exact Or.inr (List.mem_cons_of_mem y h)

theorem pairwise_insertDesc (x : Citation) :
    ∀ l : List Citation, l.Pairwise (fun a b => b.similarity ≤ a.similarity) →
      (insertDesc x l).Pairwise (fun a b => b.similarity ≤ a.similarity) := by
  intro l
  induction l with
  | nil =>
    intro _
    simp [insertDesc]
  | cons y ys ih =>
    intro h
    rcases List.pairwise_cons.mp h with ⟨hy, hys⟩
    by_cases hc : y.similarity ≤ x.similarity
    · simp only [insertDesc, if_pos hc]
      refine List.pairwise_cons.mpr ⟨?_, h⟩
      intro b hb
      rcases List.mem_cons.mp hb with hb | hb
      · rw [hb]
        exact hc
      · exact le_trans (hy b hb) hc
    · simp only [insertDesc, if_neg hc]
      refine List.pairwise_cons.mpr ⟨?_, ih hys⟩
      intro b hb
      rcases mem_insertDesc b x ys hb with hb | hb
      · rw [hb]
        exact le_of_not_le hc
      · exact hy b hb

theorem sortDesc_pairwise :
    ∀ l : List Citation, (sortDesc l).Pairwise (fun a b => b.similarity ≤ a.similarity) := by
  intro l
  induction l with
  | nil => simp [sortDesc]
  | cons x xs ih => exact pairwise_insertDesc x (sortDesc xs) ih

theorem insertDesc_filter (x : Citation) (q : ℚ) :
    ∀ l : List Citation,
      (insertDesc x l).filter (fun s => decide (s.similarity = q)) =
        if x.similarity = q then
          x :: l.filter (fun s => decide (s.similarity = q))
        else l.filter (fun s => decide (s.similarity = q)) := by
  intro l
  induction l with
  | nil => by_cases hx : x.similarity = q <;> simp [insertDesc, hx]
  | cons y ys ih =>
    by_cases hc : y.similarity ≤ x.similarity
    · simp only [insertDesc, if_pos hc]
      by_cases hx : x.similarity = q <;> by_cases hy : y.similarity = q <;>
        simp [hx, hy]
    · have hlt : x.similarity < y.similarity := not_le.mp hc
      simp only [insertDesc, if_neg hc]
      by_cases hx : x.similarity = q <;> by_cases hy : y.similarity = q
      · exfalso
        rw [hx, hy] at hlt
        exact lt_irrefl q hlt
      · simp [hx, hy, ih]
      · simp [hx, hy, ih]
      · simp [hx, hy, ih]

theorem sortDesc_filter (q : ℚ) :
    ∀ l : List Citation,
      (sortDesc l).filter (fun s => decide (s.similarity = q)) =
        l.filter (fun s => decide (s.similarity = q)) := by
  intro l
  induction l with
  | nil => rfl
  | cons x xs ih =>
    show (insertDesc x (sortDesc xs)).filter _ = _
    rw [insertDesc_filter x q (sortDesc xs), ih]
    by_cases hx : x.similarity = q <;> simp [hx]

/-- C3: format_sources returns at most 8 citations, is unchanged when the
inputs are pre-cut to their first 8 and first 2 entries, is sorted by
non-increasing similarity, is stable (for every similarity value, the
citations carrying it form a prefix of the equally-scored subsequence of
the combined pre-sort list, hence keep their original relative order), and
a missing similarity enters the citation as 0. -/
theorem format_sources_spec (app kb : List SearchResult) :
    (format_sources app kb).length ≤ 8 ∧
    format_sources app kb = format_sources (app.take 8) (kb.take 2) ∧
    (format_sources app kb).Pairwise (fun x y => y.similarity ≤ x.similarity) ∧
    (∀ q : ℚ, ∃ t, (combinedCitations app kb).filter (fun s => decide (s.similarity = q)) =
      (format_sources app kb).filter (fun s => decide (s.similarity = q)) ++ t) ∧
    (∀ r : SearchResult, r.similarity = none →
      (appCitation r).similarity = 0 ∧ (kbCitation r).similarity = 0) := by
  refine ⟨?_, ?_, ?_, ?_, ?_⟩
  · rw [format_sources, List.length_take]
    exact min_le_left _ _
  · simp [format_sources, combinedCitations, List.take_take]
  · exact (sortDesc_pairwise _).sublist (List.take_sublist _ _)
  · intro q
    refine ⟨((sortDesc (combinedCitations app kb)).drop 8).filter
      (fun s => decide (s.similarity = q)), ?_⟩
    rw [← sortDesc_filter q (combinedCitations app kb)]
    conv_lhs => rw [← List.take_append_drop 8 (sortDesc (combinedCitations app kb))]
    rw [List.filter_append]
    rfl
  · intro r h
    constructor
    · simp [appCitation, h]
    · simp [kbCitation, h]

/-- C3 witness: the cap holds on concrete inputs, and a row with no
similarity is cited with similarity 0. -/
theorem format_sources_spec_witness :
    (format_sources [wAction] [wStray]).length ≤ 8 ∧ (appCitation wLongRow).similarity = 0 := by
  exact ⟨(format_sources_spec [wAction] [wStray]).1,
    ((format_sources_spec [] []).2.2.2.2 wLongRow rfl).1⟩

/-! Lemmas on the event trace. -/

theorem contentEvents_content (l : List (Option Str)) :
    ∀ e ∈ contentEvents l, ∃ s, e = Event.content s := by
  intro e he
  rcases List.mem_filterMap.mp he with ⟨c, _, hc⟩
  cases c with
  | none => simp [chunkEvent] at hc
  | some s =>
    by_cases hs : s = []
    · simp [chunkEvent, hs] at hc
    · simp only [chunkEvent, if_neg hs] at hc
      exact ⟨s, ((Option.some.injEq _ _).mp hc).symm⟩

theorem contentEvents_filter_nil (p : Event → Bool) (hp : ∀ s, p (Event.content s) = false)
    (l : List (Option Str)) : (contentEvents l).filter p = [] := by
  rw [List.filter_eq_nil_iff]
  intro e he
  rcases contentEvents_content l e he with ⟨s, rfl⟩
  simp [hp]

theorem matchesPattern_error_done (m : Str) : matchesPattern [Event.error m, Event.done] := by
  refine ⟨[], [], [Event.error m], rfl, Or.inl rfl, ?_, Or.inr ⟨m, rfl⟩⟩
  intro e he
  exact absurd he (List.not_mem_nil e)

theorem matchesPattern_main (cs : List Citation) (l : List (Option Str)) (se : Option Str) :
    matchesPattern (Event.sources cs :: (contentEvents l ++ doneTail se)) := by
  cases se with
  | none =>
    refine ⟨[Event.sources cs], contentEvents l, [], ?_, Or.inr ⟨cs, rfl⟩,
      contentEvents_content l, Or.inl rfl⟩
    simp [doneTail]
  | some m =>
    refine ⟨[Event.sources cs], contentEvents l, [Event.error m], ?_, Or.inr ⟨cs, rfl⟩,
      contentEvents_content l, Or.inr ⟨m, rfl⟩⟩
    simp [doneTail]

theorem sources_tail_getLast (cs : List Citation) (l : List (Option Str)) (se : Option Str) :
    (Event.sources cs :: (contentEvents l ++ doneTail se)).getLast? = some Event.done := by
  cases se with
  | none =>
    rw [show Event.sources cs :: (contentEvents l ++ doneTail none) =
      (Event.sources cs :: contentEvents l) ++ [Event.done] by simp [doneTail]]
    exact List.getLast?_concat _
  | some m =>
    rw [show Event.sources cs :: (contentEvents l ++ doneTail (some m)) =
      (Event.sources cs :: (contentEvents l ++ [Event.error m])) ++ [Event.done] by
        simp [doneTail]]
    exact List.getLast?_concat _

theorem sources_tail_counts (cs : List Citation) (l : List (Option Str)) (se : Option Str) :
    ((Event.sources cs :: (contentEvents l ++ doneTail se)).filter isDoneEvent).length = 1 ∧
    ((Event.sources cs :: (contentEvents l ++ doneTail se)).filter isSourcesEvent).length ≤ 1 ∧
    ((Event.sources cs :: (contentEvents l ++ doneTail se)).filter isErrorEvent).length ≤ 1 := by
  cases se <;>
    simp [doneTail, List.filter_append, isDoneEvent, isSourcesEvent, isErrorEvent,
      contentEvents_filter_nil isDoneEvent (fun _ => rfl) l,
      contentEvents_filter_nil isSourcesEvent (fun _ => rfl) l,
      contentEvents_filter_nil isErrorEvent (fun _ => rfl) l]

/-- C1: for every request that reaches the stream-opened state, the event
sequence matches sources? content* error? done: it decomposes as an
optional single sources event, then content events only, then an optional
single error event, then done; moreover exactly one done event occurs and
it is last, and at most one sources and at most one error event occur. -/
theorem stream_event_pattern (env : Env) (req : Except Str Request) :
    matchesPattern (streamTrace env req).events ∧
    ((streamTrace env req).events.filter isDoneEvent).length = 1 ∧
    (streamTrace env req).events.getLast? = some Event.done ∧
    ((streamTrace env req).events.filter isSourcesEvent).length ≤ 1 ∧
    ((streamTrace env req).events.filter isErrorEvent).length ≤ 1 := by
  rcases req with m | r
  · exact ⟨matchesPattern_error_done m, rfl, rfl, Nat.zero_le 1, le_refl 1⟩
  · by_cases hm : r.message = []
    · simp only [streamTrace, if_pos hm]
      exact ⟨matchesPattern_error_done msgNoMessage, rfl, rfl, Nat.zero_le 1, le_refl 1⟩
    · simp only [streamTrace, if_neg hm]
      exact ⟨matchesPattern_main _ env.chunks env.streamErr,
        (sources_tail_counts _ env.chunks env.streamErr).1,
        sources_tail_getLast _ env.chunks env.streamErr,
        (sources_tail_counts _ env.chunks env.streamErr).2.1,
        (sources_tail_counts _ env.chunks env.streamErr).2.2⟩

/-- C1 witness: the pattern holds on a concrete failed-generation run. -/
theorem stream_event_pattern_witness :
    matchesPattern (streamTrace envAllFail (Except.error ("boom".data))).events := by
  exact (stream_event_pattern envAllFail (Except.error ("boom".data))).1

/-- C5: an empty message produces exactly the error event then the done
event, with no sources or content event, no embedding or store call, and
no model call. -/
theorem empty_message_events (env : Env) (history : List ChatMessage) :
    streamTrace env (Except.ok { message := [], history := history }) =
      { events := [Event.error msgNoMessage, Event.done], embedCalls := [],
        storeCalls := 0, modelCall := none } := by
  rfl

/-- C6: when a required credential is missing, do_POST answers with a
non-stream JSON error response carrying status 500 and a message, and no
stream outcome (hence no stream event) is produced. -/
theorem config_error_pre_stream (cfg : Config) (env : Env) (req : Except Str Request)
    (h : cfg.OPENAI_API_KEY = [] ∨ cfg.SUPABASE_URL = [] ∨
      cfg.SUPABASE_SERVICE_ROLE_KEY = []) :
    (∃ m, do_POST cfg env req = Response.jsonError 500 m) ∧
    ∀ out, do_POST cfg env req ≠ Response.stream out := by
  by_cases h1 : cfg.OPENAI_API_KEY = []
  · rw [do_POST, if_pos h1]
    exact ⟨⟨msgMissingOpenAI, rfl⟩, fun out hout => Response.noConfusion hout⟩
  · have h2 : cfg.SUPABASE_URL = [] ∨ cfg.SUPABASE_SERVICE_ROLE_KEY = [] := by
      rcases h with h | h | h
      · exact absurd h h1
      · exact Or.inl h
      · exact Or.inr h
    rw [do_POST, if_neg h1, if_pos h2]
    exact ⟨⟨msgMissingSupabase, rfl⟩, fun out hout => Response.noConfusion hout⟩

/-- An entirely empty configuration. -/
def cfgNoKey : Config := {}

/-- C6 witness: with no credentials configured, a concrete request gets the
JSON error response and not a stream. -/
theorem config_error_pre_stream_witness :
    (∃ m, do_POST cfgNoKey envAllFail (Except.ok {}) = Response.jsonError 500 m) ∧
    do_POST cfgNoKey envAllFail (Except.ok {}) ≠
      Response.stream (streamTrace envAllFail (Except.ok {})) := by
  exact ⟨(config_error_pre_stream cfgNoKey envAllFail (Except.ok {}) (Or.inl rfl)).1,
    (config_error_pre_stream cfgNoKey envAllFail (Except.ok {}) (Or.inl rfl)).2 _⟩

/-- C10: a non-empty whitespace-only message passes validation: no
validation error is emitted; the embedding is absent so both searches
return empty with no provider or store call, the sources event carries the
empty list, and the model call proceeds with the sentinel context. -/
theorem whitespace_message_flow (env : Env) (history : List ChatMessage) (msg : Str)
    (hne : msg ≠ []) (hsp : ∀ c ∈ msg, pyIsSpace c = true) :
    streamTrace env (Except.ok { message := msg, history := history }) =
      { events := Event.sources [] :: (contentEvents env.chunks ++ doneTail env.streamErr),
        embedCalls := [], storeCalls := 0,
        modelCall := some (mkMessages noDocsMsg history msg) } := by
  have hemb : generate_embedding env.embedRemote msg = ⟨none, []⟩ :=
    (generate_embedding_spec env.embedRemote msg).1 (Or.inr hsp)
  simp only [streamTrace, if_neg hne]
  simp [search_app_content, search_kb_content, hemb, format_sources, combinedCitations,
    sortDesc, build_context, build_context_parts, actionsOf, componentsOf, pagesOf]

/-- C10 witness: a single-space message on a concrete environment yields
the empty sources event followed by done, and a model call grounded on the
sentinel context. -/
theorem whitespace_message_flow_witness :
    streamTrace envAllFail (Except.ok { message := " ".data, history := [] }) =
      { events := [Event.sources [], Event.done], embedCalls := [], storeCalls := 0,
        modelCall := some (mkMessages noDocsMsg [] (" ".data)) } := by
  have h := whitespace_message_flow envAllFail [] (" ".data) (by decide) (by decide)
  simpa [envAllFail, contentEvents, doneTail] using h

end LennyChat
